import Mathlib

/-!
Shallow embedding of the calendar connection / event aggregation subsystem of
`src/src/lib/calendar-service.ts` (the `CalendarService` class), together with
proofs about it.

Modelling conventions:
- JavaScript `Date` values are represented by their epoch-milliseconds
  (`Int`, the value of `Date.getTime()`); the `new Date(string)` parser is an
  external collaborator and is passed in as a function `dateParse`.
- `fetch` and the JSON bodies it yields are external inputs: each HTTP call is
  represented by a `FetchOutcome` drawn from an environment function.
- A thrown JavaScript error is an `Except.error` carrying the error message;
  a `try`/`catch` block is a `match` on that `Except`.
- The `Map<string, CalendarConnection>` is an insertion-ordered association
  list with the JS `Map.set`/`Map.delete` semantics (`mapSet`, `mapDelete`).
- JS truthiness of optional strings (`undefined` and `""` are falsy) is
  modelled by `truthyStr`; the `a || b` idiom by `jsOrStr`.
-/

namespace Timebloc

/-- `CalendarConnection` from calendar-service.ts (lines 20-28). -/
structure CalendarConnection where
  id : String
  provider : String
  email : String
  accessToken : String
  refreshToken : Option String
  expiresAt : Int
  connectedAt : Int
deriving Repr, DecidableEq

/-- `CalendarEvent` from calendar-service.ts (lines 30-39); `start`/`end` hold
the epoch milliseconds of the corresponding `Date`. -/
structure CalendarEvent where
  id : String
  title : String
  start : Int
  «end» : Int
  isAllDay : Bool
  description : Option String
  location : Option String
  provider : String
deriving Repr, DecidableEq

/-- JS truthiness of an optional string: `undefined` and `""` are falsy. -/
def truthyStr : Option String → Bool
  | none => false
  | some s => !(s == "")

/-- The JS idiom `a || b` for an optional string `a` and default `b`. -/
def jsOrStr (a : Option String) (b : String) : String :=
  match a with
  | none => b
  | some s => if s == "" then b else s

/-- Shape of one item of the Google Calendar API response
(calendar-service.ts lines 393-399): `start`/`end` each carry an optional
`dateTime` and an optional date-only `date` field. -/
structure GoogleEventTime where
  dateTime : Option String
  date : Option String
deriving Repr, DecidableEq

/-- One raw Google Calendar event item. -/
structure GoogleItem where
  id : String
  summary : Option String
  start : GoogleEventTime
  «end» : GoogleEventTime
  description : Option String
  location : Option String
deriving Repr, DecidableEq

/-- Normalization of one Google item (calendar-service.ts lines 400-409):
`title := item.summary || '(No title)'`,
`start := new Date(item.start.dateTime || item.start.date || '')`,
`isAllDay := !!item.start.date`. -/
def normalizeGoogleItem (dateParse : String → Int) (item : GoogleItem) :
    CalendarEvent :=
  { id := item.id
    title := jsOrStr item.summary "(No title)"
    start := dateParse (jsOrStr item.start.dateTime (jsOrStr item.start.date ""))
    «end» := dateParse (jsOrStr item.«end».dateTime (jsOrStr item.«end».date ""))
    isAllDay := truthyStr item.start.date
    description := item.description
    location := item.location
    provider := "google" }

/-- The `start`/`end` objects of a Microsoft Graph event: a mandatory
`dateTime` string. -/
structure MicrosoftDateTime where
  dateTime : String
deriving Repr, DecidableEq

/-- The optional `location` object of a Microsoft Graph event with its
optional `displayName`. -/
structure MicrosoftLocation where
  displayName : Option String
deriving Repr, DecidableEq

/-- Shape of one item of the Microsoft Graph calendarview response
(calendar-service.ts lines 469-476). -/
structure MicrosoftItem where
  id : String
  subject : Option String
  start : MicrosoftDateTime
  «end» : MicrosoftDateTime
  isAllDay : Bool
  bodyPreview : Option String
  location : Option MicrosoftLocation
deriving Repr, DecidableEq

/-- Normalization of one Microsoft item (calendar-service.ts lines 477-486):
`title := item.subject || '(No title)'`, `isAllDay := item.isAllDay`,
`location := item.location?.displayName`. -/
def normalizeMicrosoftItem (dateParse : String → Int) (item : MicrosoftItem) :
    CalendarEvent :=
  { id := item.id
    title := jsOrStr item.subject "(No title)"
    start := dateParse item.start.dateTime
    «end» := dateParse item.«end».dateTime
    isAllDay := item.isAllDay
    description := item.bodyPreview
    location := item.location.bind MicrosoftLocation.displayName
    provider := "microsoft" }

/-- `refreshToken` (calendar-service.ts lines 530-555): without a refresh
token it returns `null`; with one, both the Google and the Microsoft branch
log that refresh requires server-side handling and return `null`; the final
fallthrough also returns `null`. -/
def refreshToken (connection : CalendarConnection) : Option CalendarConnection :=
  match connection.refreshToken with
  | none => none
  | some _ =>
    if connection.provider == "google" then none
    else if connection.provider == "microsoft" then none
    else none

/-- The in-memory `Map<string, CalendarConnection>` of the service, as an
insertion-ordered association list. -/
abbrev ConnMap := List (String × CalendarConnection)

/-- JS `Map.set`: replace in place when the key is present, append otherwise. -/
def mapSet (m : ConnMap) (k : String) (v : CalendarConnection) : ConnMap :=
  match m with
  | [] => [(k, v)]
  | (k', v') :: rest => if k' == k then (k, v) :: rest else (k', v') :: mapSet rest k v

/-- JS `Map.delete`: remove the entry with the given key, if any. -/
def mapDelete (m : ConnMap) (k : String) : ConnMap :=
  match m with
  | [] => []
  | (k', v') :: rest => if k' == k then rest else (k', v') :: mapDelete rest k

/-- The keys of the connection table. -/
def mapKeys (m : ConnMap) : List String := m.map Prod.fst

/-- `getConnections` (calendar-service.ts lines 526-528):
`Array.from(this.connections.values())`. -/
def getConnections (m : ConnMap) : List CalendarConnection := m.map Prod.snd

/-- `removeConnection` (calendar-service.ts lines 593-603): deletes the id
from the in-memory map (the backend removal is an external side effect whose
failure is caught and ignored). -/
def removeConnection (connections : ConnMap) (connectionId : String) : ConnMap :=
  mapDelete connections connectionId

/-- Outcome of one `fetch` call against a provider endpoint, as seen by the
program: either the promise rejects (network failure, a thrown error carrying
a message), or a response arrives with an HTTP status, a body text (what
`response.text()` yields on the error path) and an optional parsed item array
(`data.items` for Google, `data.value` for Microsoft; `none` models a missing
or non-array field). -/
inductive FetchOutcome (α : Type) where
  | networkError (msg : String)
  | response (status : Nat) (bodyText : String) (payload : Option (List α))
deriving Repr

/-- `response.ok`: the HTTP status is in the 2xx range. -/
def statusOk (status : Nat) : Bool := 200 ≤ status && status < 300

/-- The message of the error thrown at calendar-service.ts line 383. -/
def googleErrorMessage (status : Nat) (bodyText : String) : String :=
  "Google Calendar API error: " ++ toString status ++ " - " ++ bodyText

/-- The message of the error thrown at calendar-service.ts line 459. -/
def microsoftErrorMessage (status : Nat) (bodyText : String) : String :=
  "Microsoft Graph API error: " ++ toString status ++ " - " ++ bodyText

/-- `error.message.includes(pat)` on strings. -/
def strContains (s pat : String) : Bool :=
  decide (pat.toList <:+: s.toList)

/-- The expired-token precheck at the top of both fetchers
(calendar-service.ts lines 346-352 and 424-430): when `expiresAt` is truthy
and in the past, attempt a refresh and use its result when available,
otherwise keep the existing connection. -/
def refreshIfExpired (now : Int) (connection : CalendarConnection) :
    CalendarConnection :=
  if connection.expiresAt != 0 && decide (now > connection.expiresAt) then
    match refreshToken connection with
    | some refreshed => refreshed
    | none => connection
  else connection

/-- The body of the `try` block of `fetchGoogleCalendarEvents`
(calendar-service.ts lines 344-409). `env` supplies the outcome of the
`fetch` of each attempt; the recursive retry at line 379 only fires when
`refreshToken` yields a connection, which it never does, so the fuel is
never consumed (the fuel-exhausted arm is unreachable, see
`refreshToken_none`). -/
def fetchGoogleTry (dateParse : String → Int) (now : Int)
    (env : Nat → FetchOutcome GoogleItem) :
    Nat → Nat → CalendarConnection → Except String (List CalendarEvent)
  | 0, _, _ => Except.error "unreachable"
  | fuel + 1, attempt, connection =>
    let connection := refreshIfExpired now connection
    match env attempt with
    | FetchOutcome.networkError msg => Except.error msg
    | FetchOutcome.response status bodyText payload =>
      if !(statusOk status) then
        if status == 401 then
          match refreshToken connection with
          | some refreshed => fetchGoogleTry dateParse now env fuel (attempt + 1) refreshed
          | none => Except.error (googleErrorMessage status bodyText)
        else Except.error (googleErrorMessage status bodyText)
      else
        match payload with
        | none => Except.ok []
        | some items => Except.ok (items.map (normalizeGoogleItem dateParse))

/-- `fetchGoogleCalendarEvents` (calendar-service.ts lines 339-419): run the
`try` body; the `catch` turns every thrown error into a normal return of
`[]`, deleting the connection first when the message contains `'401'`.
The `Except` in the result is the outer promise: `error` would mean a
rejection reaching the caller. -/
def fetchGoogleCalendarEvents (dateParse : String → Int) (now : Int)
    (env : Nat → FetchOutcome GoogleItem) (connections : ConnMap)
    (connection : CalendarConnection) :
    ConnMap × Except String (List CalendarEvent) :=
  match fetchGoogleTry dateParse now env 1 0 connection with
  | Except.ok events => (connections, Except.ok events)
  | Except.error msg =>
    if strContains msg "401" then
      (removeConnection connections connection.id, Except.ok [])
    else (connections, Except.ok [])

/-- The body of the `try` block of `fetchMicrosoftCalendarEvents`
(calendar-service.ts lines 422-486), structured exactly like the Google
one. -/
def fetchMicrosoftTry (dateParse : String → Int) (now : Int)
    (env : Nat → FetchOutcome MicrosoftItem) :
    Nat → Nat → CalendarConnection → Except String (List CalendarEvent)
  | 0, _, _ => Except.error "unreachable"
  | fuel + 1, attempt, connection =>
    let connection := refreshIfExpired now connection
    match env attempt with
    | FetchOutcome.networkError msg => Except.error msg
    | FetchOutcome.response status bodyText payload =>
      if !(statusOk status) then
        if status == 401 then
          match refreshToken connection with
          | some refreshed => fetchMicrosoftTry dateParse now env fuel (attempt + 1) refreshed
          | none => Except.error (microsoftErrorMessage status bodyText)
        else Except.error (microsoftErrorMessage status bodyText)
      else
        match payload with
        | none => Except.ok []
        | some items => Except.ok (items.map (normalizeMicrosoftItem dateParse))

/-- `fetchMicrosoftCalendarEvents` (calendar-service.ts lines 421-496). -/
def fetchMicrosoftCalendarEvents (dateParse : String → Int) (now : Int)
    (env : Nat → FetchOutcome MicrosoftItem) (connections : ConnMap)
    (connection : CalendarConnection) :
    ConnMap × Except String (List CalendarEvent) :=
  match fetchMicrosoftTry dateParse now env 1 0 connection with
  | Except.ok events => (connections, Except.ok events)
  | Except.error msg =>
    if strContains msg "401" then
      (removeConnection connections connection.id, Except.ok [])
    else (connections, Except.ok [])

/-- The provider dispatch inside the aggregation loop (calendar-service.ts
lines 507-513): `events` starts as `[]` and is only reassigned in the
`google` and `microsoft` branches, so any other provider contributes the
empty list and touches nothing. -/
def dispatchFetch (dateParse : String → Int) (now : Int)
    (genv : CalendarConnection → Nat → FetchOutcome GoogleItem)
    (menv : CalendarConnection → Nat → FetchOutcome MicrosoftItem)
    (connections : ConnMap) (connection : CalendarConnection) :
    ConnMap × Except String (List CalendarEvent) :=
  if connection.provider == "google" then
    fetchGoogleCalendarEvents dateParse now (genv connection) connections connection
  else if connection.provider == "microsoft" then
    fetchMicrosoftCalendarEvents dateParse now (menv connection) connections connection
  else (connections, Except.ok [])

/-- The per-connection loop of `getAllCalendarEvents` (calendar-service.ts
lines 504-520): each iteration runs inside `try`/`catch`, so a rejected
fetch is logged and skipped while a resolved one has its events appended. -/
def aggLoop
    (fetch : ConnMap → CalendarConnection →
      ConnMap × Except String (List CalendarEvent)) :
    ConnMap × List CalendarEvent → List CalendarConnection →
    ConnMap × List CalendarEvent
  | acc, [] => acc
  | (st, events), connection :: rest =>
    match fetch st connection with
    | (st', Except.ok es) => aggLoop fetch (st', events ++ es) rest
    | (st', Except.error _) => aggLoop fetch (st', events) rest

/-- The comparator of the final sort (calendar-service.ts line 523):
ascending by `start.getTime()`. -/
def eventLe (a b : CalendarEvent) : Bool := decide (a.start ≤ b.start)

/-- `getAllCalendarEvents` (calendar-service.ts lines 498-524) generalized
over the per-connection fetch: loop over the connection values, then sort
the concatenation ascending by start time (`Array.prototype.sort` is a
stable sort, modelled by `List.mergeSort`). -/
def getAllCalendarEventsWith
    (fetch : ConnMap → CalendarConnection →
      ConnMap × Except String (List CalendarEvent))
    (connections : ConnMap) : ConnMap × List CalendarEvent :=
  let result := aggLoop fetch (connections, []) (getConnections connections)
  (result.1, result.2.mergeSort eventLe)

/-- `getAllCalendarEvents` with the concrete provider dispatch. -/
def getAllCalendarEvents (dateParse : String → Int) (now : Int)
    (genv : CalendarConnection → Nat → FetchOutcome GoogleItem)
    (menv : CalendarConnection → Nat → FetchOutcome MicrosoftItem)
    (connections : ConnMap) : ConnMap × List CalendarEvent :=
  getAllCalendarEventsWith (dispatchFetch dateParse now genv menv) connections

/-- The derived connection id `${providerId}-${uid}` used by both
`processAuthResult` (line 228) and `processAuthToken` (line 571). -/
def mkConnectionId (provider uid : String) : String := provider ++ "-" ++ uid

/-- The error message thrown by `processAuthToken`'s catch block
(calendar-service.ts line 589). -/
def invalidTokenMessage : String :=
  "Invalid token format. Please try authentication again."

/-- Result of `JSON.parse(atob(token.trim()))` on a pasted manual token:
either the decode throws (malformed base64 or JSON) or it yields the payload
object `{provider, email, uid, accessToken, idToken}`. -/
inductive TokenDecode where
  | malformed
  | payload (provider email uid accessToken : String)
deriving Repr, DecidableEq

/-- `processAuthToken` (calendar-service.ts lines 557-591). A decode failure
throws; a provider mismatch throws inside the same `try`, and the `catch`
rethrows both as the invalid-token error before any connection is created.
On success the connection is stored under its derived id (`saveConnection`
to the backend is an external side effect, modelled as succeeding). -/
def processAuthToken (now : Int) (connections : ConnMap) (providerId : String)
    (token : TokenDecode) : ConnMap × Except String CalendarConnection :=
  match token with
  | TokenDecode.malformed => (connections, Except.error invalidTokenMessage)
  | TokenDecode.payload provider email uid accessToken =>
    if provider != providerId then
      (connections, Except.error invalidTokenMessage)
    else
      let connection : CalendarConnection :=
        { id := mkConnectionId providerId uid
          provider := providerId
          email := email
          accessToken := accessToken
          refreshToken := none
          expiresAt := now + 3600 * 1000
          connectedAt := now }
      (mapSet connections connection.id connection, Except.ok connection)

/-- `processAuthResult` (calendar-service.ts lines 181-246), taken after the
SDK-specific credential extraction: `uid` and `email` come from the Firebase
user (`email := user.email || ''`), `accessToken` is whatever the extraction
produced (`""` when none was obtained, which throws at line 223); the local
`refreshToken` variable is declared at line 195 and never assigned, so the
stored connection never carries one. -/
def processAuthResult (now : Int) (connections : ConnMap)
    (providerId uid : String) (email : Option String) (accessToken : String) :
    ConnMap × Except String CalendarConnection :=
  if accessToken == "" then
    (connections, Except.error "Failed to get access token from authentication result")
  else
    let connection : CalendarConnection :=
      { id := mkConnectionId providerId uid
        provider := providerId
        email := jsOrStr email ""
        accessToken := accessToken
        refreshToken := none
        expiresAt := now + 3600 * 1000
        connectedAt := now }
    (mapSet connections connection.id connection, Except.ok connection)

/-!
Reference-level model of `getConnections`, for the snapshot question.

In the source the table is a `Map<string, CalendarConnection>` whose values
are object references, and `Array.from(this.connections.values())` copies
the array of references, not the records. To express what a caller-side
mutation of a returned record does, this refined model makes the references
explicit: a heap of records addressed by `Nat`, and a table mapping each
connection id to an address. `getConnectionsRefs` is `getConnections` at
this level: a fresh array holding the table's addresses.
-/

/-- Manager state with explicit object references. -/
structure ManagerState where
  heap : List CalendarConnection
  table : List (String × Nat)
deriving Repr, DecidableEq

/-- `Array.from(this.connections.values())` at the reference level: a fresh
array containing the same references as the table. -/
def getConnectionsRefs (s : ManagerState) : List Nat := s.table.map Prod.snd

/-- A caller-side field assignment through a reference obtained from the
returned array: overwrite the record at that address. -/
def heapWrite (s : ManagerState) (addr : Nat) (v : CalendarConnection) :
    ManagerState :=
  { s with heap := s.heap.set addr v }

/-- The record used when dereferencing an out-of-range address (never the
case for well-formed states). -/
def blankConnection : CalendarConnection :=
  { id := "", provider := "", email := "", accessToken := "",
    refreshToken := none, expiresAt := 0, connectedAt := 0 }

/-- The manager's own view of its table: each stored reference dereferenced
in the current heap. This is what any later use of `this.connections` sees. -/
def managerView (s : ManagerState) : List CalendarConnection :=
  s.table.map fun kv => s.heap.getD kv.2 blankConnection

/-- The events the aggregation loop appends for one fetch result: the list
on resolution, nothing on rejection (the `catch` arm). -/
def resultEvents : Except String (List CalendarEvent) → List CalendarEvent
  | Except.ok es => es
  | Except.error _ => []

/-- The events one connection contributes to the aggregate. The fetchers
compute their result from the fetch outcome alone, never from the table
threaded through, so the contribution is well defined at the empty table. -/
def connContribution (dateParse : String → Int) (now : Int)
    (genv : CalendarConnection → Nat → FetchOutcome GoogleItem)
    (menv : CalendarConnection → Nat → FetchOutcome MicrosoftItem)
    (c : CalendarConnection) : List CalendarEvent :=
  resultEvents (dispatchFetch dateParse now genv menv [] c).2

/-!
Concrete fixtures, used by the closed concrete instantiations below.
-/

/-- A concrete Google connection. -/
def sampleGoogleConnection : CalendarConnection :=
  { id := "google-u1", provider := "google", email := "g@example.com",
    accessToken := "tokG", refreshToken := none, expiresAt := 0,
    connectedAt := 0 }

/-- A concrete Microsoft connection. -/
def sampleMicrosoftConnection : CalendarConnection :=
  { id := "microsoft-u2", provider := "microsoft", email := "m@example.com",
    accessToken := "tokM", refreshToken := none, expiresAt := 0,
    connectedAt := 0 }

/-- A concrete connection whose provider is neither of the two supported
ones (as a record with an unrecognized provider string loaded from the
backend would be). -/
def sampleUnknownConnection : CalendarConnection :=
  { id := "caldav-u3", provider := "caldav", email := "c@example.com",
    accessToken := "tokC", refreshToken := none, expiresAt := 0,
    connectedAt := 0 }

/-- A concrete timed Google item. -/
def sampleGoogleItem : GoogleItem :=
  { id := "g-ev-1", summary := some "Standup",
    start := { dateTime := some "2025-01-02T10:00:00Z", date := none },
    «end» := { dateTime := some "2025-01-02T10:30:00Z", date := none },
    description := none, location := none }

/-- A concrete all-day Google item (date-only start). -/
def sampleAllDayGoogleItem : GoogleItem :=
  { id := "g-ev-2", summary := none,
    start := { dateTime := none, date := some "2025-01-03" },
    «end» := { dateTime := none, date := some "2025-01-04" },
    description := none, location := none }

/-- A concrete timed Microsoft item. -/
def sampleMicrosoftItem : MicrosoftItem :=
  { id := "m-ev-1", subject := some "Review",
    start := { dateTime := "2025-01-02T11:00:00Z" },
    «end» := { dateTime := "2025-01-02T12:00:00Z" },
    isAllDay := false, bodyPreview := none, location := none }

/-- A concrete all-day Microsoft item. -/
def sampleAllDayMicrosoftItem : MicrosoftItem :=
  { id := "m-ev-2", subject := none,
    start := { dateTime := "2025-01-03T00:00:00Z" },
    «end» := { dateTime := "2025-01-04T00:00:00Z" },
    isAllDay := true, bodyPreview := none, location := none }

/-- A concrete stand-in for the external `new Date(string)` parser. -/
def sampleDateParse : String → Int := fun s => (s.length : Int)

/-- A concrete normalized event. -/
def sampleEvent : CalendarEvent :=
  { id := "m-ev-1", title := "Review", start := 3, «end» := 4,
    isAllDay := false, description := none, location := none,
    provider := "microsoft" }

/-- A concrete per-connection fetch in which the Google connection's fetch
rejects while every other fetch resolves (used to exercise the aggregation
loop's per-connection catch). -/
def badFetch (st : ConnMap) (c : CalendarConnection) :
    ConnMap × Except String (List CalendarEvent) :=
  if c.provider == "google" then (st, Except.error "network down")
  else (st, Except.ok [sampleEvent])

/-- A concrete reference-level manager state with one connection. -/
def sampleManagerState : ManagerState :=
  { heap := [sampleGoogleConnection], table := [("google-u1", 0)] }

/-- The record a caller could write through a reference obtained from the
returned array. -/
def mutatedConnection : CalendarConnection :=
  { sampleGoogleConnection with email := "evil@example.com" }

/-! Shared auxiliary lemmas. -/

/-- Every branch of `refreshToken` returns `none`. -/
lemma refreshToken_none (c : CalendarConnection) : refreshToken c = none := by
  unfold refreshToken
  cases c.refreshToken with
  | none => rfl
  | some t => dsimp only; split <;> [rfl; split <;> rfl]

/-- Since refresh is unavailable, the expired-token precheck keeps the
existing connection. -/
lemma refreshIfExpired_eq (now : Int) (c : CalendarConnection) :
    refreshIfExpired now c = c := by
  unfold refreshIfExpired
  rw [refreshToken_none]
  simp

/-- The sort comparator is transitive. -/
lemma eventLe_trans (a b c : CalendarEvent) :
    eventLe a b → eventLe b c → eventLe a c := by
  simp only [eventLe, decide_eq_true_eq]
  omega

/-- The sort comparator is total. -/
lemma eventLe_total (a b : CalendarEvent) : eventLe a b || eventLe b a := by
  simp only [eventLe, Bool.or_eq_true, decide_eq_true_eq]
  omega

/-- Setting a key that is already present leaves the key list unchanged. -/
lemma mapKeys_mapSet_of_mem (v : CalendarConnection) :
    ∀ (m : ConnMap) (k : String), k ∈ mapKeys m →
      mapKeys (mapSet m k v) = mapKeys m
  | [], k, h => absurd h (by simp [mapKeys])
  | (k', v') :: rest, k, h => by
    rcases eq_or_ne k' k with hk | hk
    · subst hk
      simp [mapSet, mapKeys]
    · have hne : (k' == k) = false := beq_eq_false_iff_ne.mpr hk
      have hmem : k ∈ mapKeys rest := by
        have hor : k = k' ∨ k ∈ mapKeys rest := by simpa [mapKeys] using h
        rcases hor with h1 | h1
        · exact absurd h1.symm hk
        · exact h1
      have hrec := mapKeys_mapSet_of_mem v rest k hmem
      simp only [mapSet, hne, Bool.false_eq_true, if_false, mapKeys,
        List.map_cons]
      simpa [mapKeys] using hrec

/-- Setting a key that is already present leaves the table size unchanged. -/
lemma length_mapSet_of_mem {m : ConnMap} {k : String}
    (v : CalendarConnection) (h : k ∈ mapKeys m) :
    (mapSet m k v).length = m.length := by
  have h1 : (mapKeys (mapSet m k v)).length = (mapKeys m).length := by
    rw [mapKeys_mapSet_of_mem v m k h]
  simpa [mapKeys] using h1

/-- Deletion yields a sublist of the original table. -/
lemma mapDelete_sublist : ∀ (m : ConnMap) (k : String), (mapDelete m k).Sublist m
  | [], _ => by simp [mapDelete]
  | (k', v') :: rest, k => by
    rcases eq_or_ne k' k with hk | hk
    · have heq : (k' == k) = true := beq_iff_eq.mpr hk
      simp only [mapDelete, heq, if_true]
      exact List.sublist_cons_self _ _
    · have hne : (k' == k) = false := beq_eq_false_iff_ne.mpr hk
      simp only [mapDelete, hne, Bool.false_eq_true, if_false]
      exact List.Sublist.cons₂ _ (mapDelete_sublist rest k)

/-- After deleting a key from a table with distinct keys, the key is gone. -/
lemma not_mem_mapKeys_mapDelete :
    ∀ {m : ConnMap} {k : String}, (mapKeys m).Nodup →
      k ∉ mapKeys (mapDelete m k)
  | [], k, _ => by simp [mapDelete, mapKeys]
  | (k', v') :: rest, k, h => by
    have h' : k' ∉ mapKeys rest ∧ (mapKeys rest).Nodup := by
      simpa [mapKeys] using h
    rcases eq_or_ne k' k with hk | hk
    · subst hk
      have heq : (k' == k') = true := beq_iff_eq.mpr rfl
      simp only [mapDelete, heq, if_true]
      exact h'.1
    · have hne : (k' == k) = false := beq_eq_false_iff_ne.mpr hk
      simp only [mapDelete, hne, Bool.false_eq_true, if_false, mapKeys,
        List.map_cons, List.mem_cons]
      push_neg
      refine ⟨fun he => hk he.symm, ?_⟩
      have := not_mem_mapKeys_mapDelete (m := rest) (k := k) h'.2
      simpa [mapKeys] using this

/-- A pattern sitting syntactically inside a string concatenation is found by
`strContains`. -/
lemma strContains_append (pre pat post : String) :
    strContains (pre ++ (pat ++ post)) pat = true := by
  apply decide_eq_true
  exact ⟨pre.toList, post.toList, by
    simp [String.toList, String.data_append, List.append_assoc]⟩

/-- The Google fetcher never rejects: its own `catch` converts every thrown
error into a resolution with `[]`. -/
lemma fetchGoogle_snd (dateParse : String → Int) (now : Int)
    (env : Nat → FetchOutcome GoogleItem) (st : ConnMap)
    (c : CalendarConnection) :
    (fetchGoogleCalendarEvents dateParse now env st c).2
      = Except.ok (resultEvents (fetchGoogleTry dateParse now env 1 0 c)) := by
  unfold fetchGoogleCalendarEvents
  cases fetchGoogleTry dateParse now env 1 0 c with
  | ok es => rfl
  | error msg =>
    dsimp only [resultEvents]
    split <;> rfl

/-- The Microsoft fetcher never rejects either. -/
lemma fetchMicrosoft_snd (dateParse : String → Int) (now : Int)
    (env : Nat → FetchOutcome MicrosoftItem) (st : ConnMap)
    (c : CalendarConnection) :
    (fetchMicrosoftCalendarEvents dateParse now env st c).2
      = Except.ok (resultEvents (fetchMicrosoftTry dateParse now env 1 0 c)) := by
  unfold fetchMicrosoftCalendarEvents
  cases fetchMicrosoftTry dateParse now env 1 0 c with
  | ok es => rfl
  | error msg =>
    dsimp only [resultEvents]
    split <;> rfl

/-- The events side of running the loop, when each listed connection's
contribution does not depend on the table state threaded through. -/
lemma aggLoop_snd
    (fetch : ConnMap → CalendarConnection →
      ConnMap × Except String (List CalendarEvent))
    (contrib : CalendarConnection → List CalendarEvent) :
    ∀ (l : List CalendarConnection) (st : ConnMap)
      (events : List CalendarEvent),
      (∀ c ∈ l, ∀ st', resultEvents (fetch st' c).2 = contrib c) →
      (aggLoop fetch (st, events) l).2 = events ++ (l.map contrib).flatten := by
  intro l
  induction l with
  | nil => intro st events _; simp [aggLoop]
  | cons c rest ih =>
    intro st events h
    have hc := h c (List.mem_cons_self c rest) st
    rcases hfc : fetch st c with ⟨st', r⟩
    have hrest : ∀ c' ∈ rest, ∀ st', resultEvents (fetch st' c').2 = contrib c' :=
      fun c' hc' => h c' (List.mem_cons_of_mem c hc')
    rw [hfc] at hc
    cases r with
    | ok es =>
      have hes : es = contrib c := by simpa [resultEvents] using hc
      subst hes
      simp only [aggLoop, hfc]
      rw [ih st' (events ++ contrib c) hrest]
      simp [List.append_assoc]
    | error msg =>
      have hnil : contrib c = [] := by simpa [resultEvents] using hc
      simp only [aggLoop, hfc]
      rw [ih st' events hrest]
      simp [hnil]

/-- The message at line 383 for a 401 always contains the text `'401'`. -/
lemma googleErrorMessage_contains_401 (bodyText : String) :
    strContains (googleErrorMessage 401 bodyText) "401" = true := by
  apply decide_eq_true
  refine ⟨"Google Calendar API error: ".toList, (" - " ++ bodyText).toList, ?_⟩
  have hts : (toString (401 : Nat)) = "401" := by decide
  simp [googleErrorMessage, hts, String.toList, String.data_append,
    List.append_assoc]

/-- The message at line 459 for a 401 always contains the text `'401'`. -/
lemma microsoftErrorMessage_contains_401 (bodyText : String) :
    strContains (microsoftErrorMessage 401 bodyText) "401" = true := by
  apply decide_eq_true
  refine ⟨"Microsoft Graph API error: ".toList, (" - " ++ bodyText).toList, ?_⟩
  have hts : (toString (401 : Nat)) = "401" := by decide
  simp [microsoftErrorMessage, hts, String.toList, String.data_append,
    List.append_assoc]

/-- The result side of the dispatch does not depend on the table threaded
through (the table is only consulted for eviction). -/
lemma dispatchFetch_snd_const (dateParse : String → Int) (now : Int)
    (genv : CalendarConnection → Nat → FetchOutcome GoogleItem)
    (menv : CalendarConnection → Nat → FetchOutcome MicrosoftItem)
    (st st' : ConnMap) (c : CalendarConnection) :
    (dispatchFetch dateParse now genv menv st c).2
      = (dispatchFetch dateParse now genv menv st' c).2 := by
  unfold dispatchFetch
  by_cases hg : (c.provider == "google") = true
  · simp only [hg, if_true]
    rw [fetchGoogle_snd, fetchGoogle_snd]
  · by_cases hm : (c.provider == "microsoft") = true
    · simp only [hg, hm, if_true, Bool.false_eq_true, if_false]
      rw [fetchMicrosoft_snd, fetchMicrosoft_snd]
    · simp only [hg, hm, Bool.false_eq_true, if_false]

/-- Consequently the per-connection contribution is the same from any
table. -/
lemma resultEvents_dispatchFetch (dateParse : String → Int) (now : Int)
    (genv : CalendarConnection → Nat → FetchOutcome GoogleItem)
    (menv : CalendarConnection → Nat → FetchOutcome MicrosoftItem)
    (st : ConnMap) (c : CalendarConnection) :
    resultEvents (dispatchFetch dateParse now genv menv st c).2
      = connContribution dateParse now genv menv c := by
  unfold connContribution
  rw [dispatchFetch_snd_const dateParse now genv menv st []]

/-- Writing the heap at the address stored at position `i` of a duplicate-free
in-range address list rewrites exactly position `i` of the dereferenced
list. -/
lemma map_getD_set (heap : List CalendarConnection) (v : CalendarConnection) :
    ∀ (refs : List Nat) (i : Nat) (addr : Nat),
      refs[i]? = some addr → refs.Nodup →
      (∀ a ∈ refs, a < heap.length) →
      refs.map (fun a => (heap.set addr v).getD a blankConnection)
        = (refs.map (fun a => heap.getD a blankConnection)).set i v
  | [], i, addr, h, _, _ => by simp at h
  | r :: rest, 0, addr, h, hnd, hlt => by
    have hr : r = addr := by simpa using h
    subst hr
    have hrlen : r < heap.length := hlt r (List.mem_cons_self r rest)
    have hnotin : r ∉ rest := (List.nodup_cons.mp hnd).1
    simp only [List.map_cons, List.set_cons_zero, List.cons.injEq]
    constructor
    · simp [List.getD_eq_getElem?_getD, List.getElem?_set_self hrlen]
    · apply List.map_congr_left
      intro a ha
      have hne : r ≠ a := fun he => hnotin (he ▸ ha)
      simp [List.getD_eq_getElem?_getD, List.getElem?_set_ne hne]
  | r :: rest, i + 1, addr, h, hnd, hlt => by
    have htl : rest[i]? = some addr := by simpa using h
    have hnotin : r ∉ rest := (List.nodup_cons.mp hnd).1
    have haddr : addr ∈ rest := List.getElem?_mem htl
    have hne : addr ≠ r := fun he => hnotin (he ▸ haddr)
    simp only [List.map_cons, List.set_cons_succ, List.cons.injEq]
    constructor
    · simp [List.getD_eq_getElem?_getD, List.getElem?_set_ne hne]
    · exact map_getD_set heap v rest i addr htl (List.nodup_cons.mp hnd).2
        fun a ha => hlt a (List.mem_cons_of_mem r ha)

/-! Claim theorems. -/

/-- C6: for every connection, `refreshToken` reports unavailable (`none`) —
it never fabricates a refreshed connection — and consequently the expired
token precheck of the fetchers falls through to the existing, possibly
expired, connection. -/
theorem refreshToken_always_unavailable :
    ∀ (c : CalendarConnection),
      refreshToken c = none ∧ ∀ (now : Int), refreshIfExpired now c = c :=
  fun c => ⟨refreshToken_none c, fun now => refreshIfExpired_eq now c⟩

/-- C5: on a malformed token or on a decoded payload whose provider differs
from the requested one, `processAuthToken` raises the invalid-token error
and leaves the connection table unchanged (no connection is created or
mutated; the backend save is not reached either). -/
theorem processAuthToken_invalid_leaves_state
    (now : Int) (st : ConnMap) (providerId : String) (token : TokenDecode)
    (h : token = TokenDecode.malformed ∨
      ∃ p e u a, token = TokenDecode.payload p e u a ∧ p ≠ providerId) :
    processAuthToken now st providerId token
      = (st, Except.error invalidTokenMessage) := by
  rcases h with h | ⟨p, e, u, a, htok, hne⟩
  · subst h; rfl
  · subst htok
    have hb : (p != providerId) = true := bne_iff_ne.mpr hne
    simp [processAuthToken, hb]

/-- Witness for C5 at a Microsoft-issued token requested for Google. -/
theorem processAuthToken_invalid_leaves_state_witness :
    processAuthToken 0 [("google-u1", sampleGoogleConnection)] "google"
        (TokenDecode.payload "microsoft" "m@example.com" "u2" "tokM")
      = ([("google-u1", sampleGoogleConnection)],
         Except.error invalidTokenMessage) :=
  processAuthToken_invalid_leaves_state 0
    [("google-u1", sampleGoogleConnection)] "google"
    (TokenDecode.payload "microsoft" "m@example.com" "u2" "tokM")
    (Or.inr ⟨"microsoft", "m@example.com", "u2", "tokM", rfl, by decide⟩)

/-- C4 counterexample: on an HTTP 500 (non-2xx, not 401) the Google fetcher
does not raise to its caller — it resolves with the empty list and leaves
the table unchanged, because its own catch block swallows the error thrown
at line 383. -/
theorem fetchGoogle_500_does_not_raise :
    fetchGoogleCalendarEvents (fun _ => 0) 0
        (fun _ => FetchOutcome.response 500 "Internal Server Error" none)
        [("google-u1", sampleGoogleConnection)] sampleGoogleConnection
      = ([("google-u1", sampleGoogleConnection)], Except.ok []) := rfl

/-- C4 amended: on a non-2xx status other than 401 the fetcher constructs
an error carrying the HTTP status and the response body text, but catches
it itself and returns an empty event list to its caller instead of raising;
the table is untouched whenever that message does not contain `'401'`. -/
theorem fetcher_non2xx_contained
    (dateParse : String → Int) (now : Int) (status : Nat) (bodyText : String)
    (genv : Nat → FetchOutcome GoogleItem)
    (menv : Nat → FetchOutcome MicrosoftItem)
    (gpayload : Option (List GoogleItem))
    (mpayload : Option (List MicrosoftItem))
    (st : ConnMap) (c : CalendarConnection)
    (hok : statusOk status = false) (h401 : status ≠ 401)
    (hg : genv 0 = FetchOutcome.response status bodyText gpayload)
    (hm : menv 0 = FetchOutcome.response status bodyText mpayload)
    (hgmsg : strContains (googleErrorMessage status bodyText) "401" = false)
    (hmmsg : strContains (microsoftErrorMessage status bodyText) "401" = false) :
    fetchGoogleTry dateParse now genv 1 0 c
        = Except.error (googleErrorMessage status bodyText)
      ∧ fetchGoogleCalendarEvents dateParse now genv st c = (st, Except.ok [])
      ∧ fetchMicrosoftTry dateParse now menv 1 0 c
        = Except.error (microsoftErrorMessage status bodyText)
      ∧ fetchMicrosoftCalendarEvents dateParse now menv st c
        = (st, Except.ok []) := by
  have hb : (status == 401) = false := by
    simpa using h401
  have hgt : fetchGoogleTry dateParse now genv 1 0 c
      = Except.error (googleErrorMessage status bodyText) := by
    simp [fetchGoogleTry, refreshIfExpired_eq, hg, hok, hb]
  have hmt : fetchMicrosoftTry dateParse now menv 1 0 c
      = Except.error (microsoftErrorMessage status bodyText) := by
    simp [fetchMicrosoftTry, refreshIfExpired_eq, hm, hok, hb]
  refine ⟨hgt, ?_, hmt, ?_⟩
  · unfold fetchGoogleCalendarEvents
    rw [hgt]
    simp [hgmsg]
  · unfold fetchMicrosoftCalendarEvents
    rw [hmt]
    simp [hmmsg]

/-- Witness for the amended C4 at a concrete 500 response. -/
theorem fetcher_non2xx_contained_witness :
    statusOk 500 = false ∧ 500 ≠ 401 ∧
    (fetchGoogleTry (fun _ => 0) 0
          (fun _ => FetchOutcome.response 500 "Internal Server Error" none)
          1 0 sampleGoogleConnection
        = Except.error (googleErrorMessage 500 "Internal Server Error")
      ∧ fetchGoogleCalendarEvents (fun _ => 0) 0
          (fun _ => FetchOutcome.response 500 "Internal Server Error" none)
          [] sampleGoogleConnection = ([], Except.ok [])
      ∧ fetchMicrosoftTry (fun _ => 0) 0
          (fun _ => FetchOutcome.response 500 "Internal Server Error" none)
          1 0 sampleGoogleConnection
        = Except.error (microsoftErrorMessage 500 "Internal Server Error")
      ∧ fetchMicrosoftCalendarEvents (fun _ => 0) 0
          (fun _ => FetchOutcome.response 500 "Internal Server Error" none)
          [] sampleGoogleConnection = ([], Except.ok [])) :=
  ⟨by decide, by decide,
    fetcher_non2xx_contained (fun _ => 0) 0 500 "Internal Server Error"
      (fun _ => FetchOutcome.response 500 "Internal Server Error" none)
      (fun _ => FetchOutcome.response 500 "Internal Server Error" none)
      none none [] sampleGoogleConnection (by decide) (by decide) rfl rfl
      (by decide) (by decide)⟩

/-- C3: when the provider answers 401 and the single refresh-and-retry
cannot happen (refresh is unavailable), the Google fetcher evicts the
connection — its id is absent from the table afterwards, so it is gone from
`listConnections` — and resolves with the empty list instead of raising. -/
theorem fetchGoogle_401_evicts
    (dateParse : String → Int) (now : Int)
    (env : Nat → FetchOutcome GoogleItem) (st : ConnMap)
    (c : CalendarConnection) (bodyText : String)
    (payload : Option (List GoogleItem))
    (hids : ∀ kv ∈ st, (kv.2).id = kv.1)
    (hnd : (mapKeys st).Nodup)
    (henv : env 0 = FetchOutcome.response 401 bodyText payload) :
    (fetchGoogleCalendarEvents dateParse now env st c).2 = Except.ok []
      ∧ ∀ c' ∈ getConnections
          (fetchGoogleCalendarEvents dateParse now env st c).1,
          c'.id ≠ c.id := by
  have hstat : statusOk 401 = false := by decide
  have htry : fetchGoogleTry dateParse now env 1 0 c
      = Except.error (googleErrorMessage 401 bodyText) := by
    simp [fetchGoogleTry, refreshIfExpired_eq, henv, hstat, refreshToken_none]
  have hres : fetchGoogleCalendarEvents dateParse now env st c
      = (removeConnection st c.id, Except.ok []) := by
    unfold fetchGoogleCalendarEvents
    rw [htry]
    simp [googleErrorMessage_contains_401]
  rw [hres]
  refine ⟨rfl, ?_⟩
  intro c' hc'
  obtain ⟨⟨k, cc⟩, hkv, heq⟩ := List.mem_map.mp hc'
  have hkv' : (k, cc) ∈ st :=
    (mapDelete_sublist st c.id).subset hkv
  have hid : cc.id = k := hids (k, cc) hkv'
  have hkmem : k ∈ mapKeys (mapDelete st c.id) :=
    List.mem_map.mpr ⟨(k, cc), hkv, rfl⟩
  have hknot : c.id ∉ mapKeys (mapDelete st c.id) :=
    not_mem_mapKeys_mapDelete hnd
  intro habs
  exact hknot (by rw [← habs, ← heq, hid] at hkmem ⊢; exact hkmem)

/-- Witness for C3 at a concrete 401 response. -/
theorem fetchGoogle_401_evicts_witness :
    (∀ kv ∈ [("google-u1", sampleGoogleConnection)], (kv.2).id = kv.1) ∧
    ((fetchGoogleCalendarEvents (fun _ => 0) 0
          (fun _ => FetchOutcome.response 401 "Unauthorized" none)
          [("google-u1", sampleGoogleConnection)] sampleGoogleConnection).2
        = Except.ok []
      ∧ ∀ c' ∈ getConnections
          (fetchGoogleCalendarEvents (fun _ => 0) 0
            (fun _ => FetchOutcome.response 401 "Unauthorized" none)
            [("google-u1", sampleGoogleConnection)]
            sampleGoogleConnection).1,
          c'.id ≠ sampleGoogleConnection.id) :=
  ⟨by decide,
    fetchGoogle_401_evicts (fun _ => 0) 0
      (fun _ => FetchOutcome.response 401 "Unauthorized" none)
      [("google-u1", sampleGoogleConnection)] sampleGoogleConnection
      "Unauthorized" none (by decide) (by decide) rfl⟩

/-- C7: the derived connection id is the pure function `mkConnectionId` of
the `(provider, provider-user-id)` pair — both `processAuthToken` and
`processAuthResult` store the new connection under exactly that id — and
re-authenticating an account whose id is already present overwrites the
entry: the table size is unchanged, the keys stay duplicate-free, and
exactly one entry for the pair remains. -/
theorem connection_id_overwrite
    (now : Int) (st : ConnMap) (providerId email uid accessToken : String)
    (em : Option String)
    (hnd : (mapKeys st).Nodup)
    (hmem : mkConnectionId providerId uid ∈ mapKeys st)
    (htok : accessToken ≠ "") :
    ((processAuthToken now st providerId
        (TokenDecode.payload providerId email uid accessToken)).1.length
        = st.length
      ∧ (mapKeys (processAuthToken now st providerId
          (TokenDecode.payload providerId email uid accessToken)).1).Nodup
      ∧ (mapKeys (processAuthToken now st providerId
          (TokenDecode.payload providerId email uid accessToken)).1).count
          (mkConnectionId providerId uid) = 1
      ∧ ∃ c, (processAuthToken now st providerId
          (TokenDecode.payload providerId email uid accessToken)).2
            = Except.ok c ∧ c.id = mkConnectionId providerId uid)
    ∧ ((processAuthResult now st providerId uid em accessToken).1.length
        = st.length
      ∧ (mapKeys (processAuthResult now st providerId uid em
          accessToken).1).Nodup
      ∧ (mapKeys (processAuthResult now st providerId uid em
          accessToken).1).count (mkConnectionId providerId uid) = 1
      ∧ ∃ c, (processAuthResult now st providerId uid em accessToken).2
          = Except.ok c ∧ c.id = mkConnectionId providerId uid) := by
  have hbeq : (providerId != providerId) = false := by simp
  have hane : (accessToken == "") = false := by simpa using htok
  constructor
  · have hkeys : mapKeys (processAuthToken now st providerId
        (TokenDecode.payload providerId email uid accessToken)).1
        = mapKeys st := by
      simp only [processAuthToken, hbeq, Bool.false_eq_true, if_false]
      exact mapKeys_mapSet_of_mem _ st _ hmem
    refine ⟨?_, ?_, ?_, ?_⟩
    · simp only [processAuthToken, hbeq, Bool.false_eq_true, if_false]
      exact length_mapSet_of_mem _ hmem
    · rw [hkeys]; exact hnd
    · rw [hkeys]; exact List.count_eq_one_of_mem hnd hmem
    · simp only [processAuthToken, hbeq, Bool.false_eq_true, if_false]
      exact ⟨_, rfl, rfl⟩
  · have hkeys : mapKeys (processAuthResult now st providerId uid em
        accessToken).1 = mapKeys st := by
      simp only [processAuthResult, hane, Bool.false_eq_true, if_false]
      exact mapKeys_mapSet_of_mem _ st _ hmem
    refine ⟨?_, ?_, ?_, ?_⟩
    · simp only [processAuthResult, hane, Bool.false_eq_true, if_false]
      exact length_mapSet_of_mem _ hmem
    · rw [hkeys]; exact hnd
    · rw [hkeys]; exact List.count_eq_one_of_mem hnd hmem
    · simp only [processAuthResult, hane, Bool.false_eq_true, if_false]
      exact ⟨_, rfl, rfl⟩

/-- Witness for C7: re-authenticating the already-stored account
`(google, u1)`. -/
theorem connection_id_overwrite_witness :
    (mapKeys [("google-u1", sampleGoogleConnection)]).Nodup ∧
    mkConnectionId "google" "u1" ∈
      mapKeys [("google-u1", sampleGoogleConnection)] ∧
    (((processAuthToken 7 [("google-u1", sampleGoogleConnection)] "google"
        (TokenDecode.payload "google" "g@example.com" "u1"
          "freshTok")).1.length
        = [("google-u1", sampleGoogleConnection)].length
      ∧ (mapKeys (processAuthToken 7 [("google-u1", sampleGoogleConnection)]
          "google" (TokenDecode.payload "google" "g@example.com" "u1"
            "freshTok")).1).Nodup
      ∧ (mapKeys (processAuthToken 7 [("google-u1", sampleGoogleConnection)]
          "google" (TokenDecode.payload "google" "g@example.com" "u1"
            "freshTok")).1).count (mkConnectionId "google" "u1") = 1
      ∧ ∃ c, (processAuthToken 7 [("google-u1", sampleGoogleConnection)]
          "google" (TokenDecode.payload "google" "g@example.com" "u1"
            "freshTok")).2 = Except.ok c
          ∧ c.id = mkConnectionId "google" "u1")
    ∧ ((processAuthResult 7 [("google-u1", sampleGoogleConnection)] "google"
        "u1" (some "g@example.com") "freshTok").1.length
        = [("google-u1", sampleGoogleConnection)].length
      ∧ (mapKeys (processAuthResult 7 [("google-u1", sampleGoogleConnection)]
          "google" "u1" (some "g@example.com") "freshTok").1).Nodup
      ∧ (mapKeys (processAuthResult 7 [("google-u1", sampleGoogleConnection)]
          "google" "u1" (some "g@example.com") "freshTok").1).count
          (mkConnectionId "google" "u1") = 1
      ∧ ∃ c, (processAuthResult 7 [("google-u1", sampleGoogleConnection)]
          "google" "u1" (some "g@example.com") "freshTok").2 = Except.ok c
          ∧ c.id = mkConnectionId "google" "u1")) :=
  ⟨by decide, by decide,
    connection_id_overwrite 7 [("google-u1", sampleGoogleConnection)]
      "google" "g@example.com" "u1" "freshTok" (some "g@example.com")
      (by decide) (by decide) (by decide)⟩

/-- C9: a Google event whose start carries a (non-empty, as in the Google
wire format) date-only field normalizes to `isAllDay = true`; a Microsoft
event with its all-day flag set normalizes to `true`; a timed event — a
Google start with a date-time and no date-only field, a Microsoft event
with the flag unset — normalizes to `false`. -/
theorem isAllDay_detection
    (dateParse : String → Int) (g gt : GoogleItem) (m mt : MicrosoftItem)
    (d t : String)
    (hg : g.start.date = some d) (hd : d ≠ "")
    (hm : m.isAllDay = true)
    (hgt : gt.start.date = none) (_hgtt : gt.start.dateTime = some t)
    (hmt : mt.isAllDay = false) :
    (normalizeGoogleItem dateParse g).isAllDay = true
      ∧ (normalizeMicrosoftItem dateParse m).isAllDay = true
      ∧ (normalizeGoogleItem dateParse gt).isAllDay = false
      ∧ (normalizeMicrosoftItem dateParse mt).isAllDay = false := by
  refine ⟨?_, by simp [normalizeMicrosoftItem, hm], ?_,
    by simp [normalizeMicrosoftItem, hmt]⟩
  · simp [normalizeGoogleItem, truthyStr, hg, hd]
  · simp [normalizeGoogleItem, truthyStr, hgt]

/-- Witness for C9 on the four concrete items. -/
theorem isAllDay_detection_witness :
    sampleAllDayGoogleItem.start.date = some "2025-01-03" ∧
    ((normalizeGoogleItem sampleDateParse sampleAllDayGoogleItem).isAllDay
        = true
      ∧ (normalizeMicrosoftItem sampleDateParse
          sampleAllDayMicrosoftItem).isAllDay = true
      ∧ (normalizeGoogleItem sampleDateParse sampleGoogleItem).isAllDay
        = false
      ∧ (normalizeMicrosoftItem sampleDateParse
          sampleMicrosoftItem).isAllDay = false) :=
  ⟨rfl,
    isAllDay_detection sampleDateParse sampleAllDayGoogleItem
      sampleGoogleItem sampleAllDayMicrosoftItem sampleMicrosoftItem
      "2025-01-03" "2025-01-02T10:00:00Z" rfl (by decide) rfl rfl rfl rfl⟩

/-- C10: a connection whose provider is neither `google` nor `microsoft`
contributes exactly zero events and completes without any error: the
dispatch resolves with `[]` leaving the table untouched, and the aggregate
over a table containing such a connection returns the same events as the
aggregate over the table without it. -/
theorem unknown_provider_contributes_nothing
    (dateParse : String → Int) (now : Int)
    (genv : CalendarConnection → Nat → FetchOutcome GoogleItem)
    (menv : CalendarConnection → Nat → FetchOutcome MicrosoftItem)
    (st1 st2 : ConnMap) (k : String) (c : CalendarConnection)
    (hg : c.provider ≠ "google") (hm : c.provider ≠ "microsoft") :
    (∀ st, dispatchFetch dateParse now genv menv st c
        = (st, Except.ok []))
      ∧ (getAllCalendarEvents dateParse now genv menv
          (st1 ++ (k, c) :: st2)).2
        = (getAllCalendarEvents dateParse now genv menv (st1 ++ st2)).2 := by
  have hgb : (c.provider == "google") = false := by simpa using hg
  have hmb : (c.provider == "microsoft") = false := by simpa using hm
  have hdisp : ∀ st, dispatchFetch dateParse now genv menv st c
      = (st, Except.ok []) := by
    intro st
    simp [dispatchFetch, hgb, hmb]
  refine ⟨hdisp, ?_⟩
  have hcontrib : ∀ (l : List CalendarConnection) (st : ConnMap),
      (aggLoop (dispatchFetch dateParse now genv menv) (st, []) l).2
        = (l.map (connContribution dateParse now genv menv)).flatten := by
    intro l st
    have h := aggLoop_snd (dispatchFetch dateParse now genv menv)
      (connContribution dateParse now genv menv) l st []
      (fun c' _ st' => resultEvents_dispatchFetch dateParse now genv menv st' c')
    simpa using h
  have hc0 : connContribution dateParse now genv menv c = [] := by
    unfold connContribution
    rw [hdisp []]
    rfl
  simp only [getAllCalendarEvents, getAllCalendarEventsWith]
  rw [hcontrib, hcontrib]
  simp [getConnections, hc0]

/-- Witness for C10 with a concrete unrecognized-provider connection. -/
theorem unknown_provider_contributes_nothing_witness :
    sampleUnknownConnection.provider ≠ "google" ∧
    ((∀ st, dispatchFetch sampleDateParse 0
          (fun _ _ => FetchOutcome.response 200 "" none)
          (fun _ _ => FetchOutcome.response 200 "" none) st
          sampleUnknownConnection
        = (st, Except.ok []))
      ∧ (getAllCalendarEvents sampleDateParse 0
          (fun _ _ => FetchOutcome.response 200 "" none)
          (fun _ _ => FetchOutcome.response 200 "" none)
          ([("google-u1", sampleGoogleConnection)]
            ++ ("caldav-u3", sampleUnknownConnection) :: [])).2
        = (getAllCalendarEvents sampleDateParse 0
            (fun _ _ => FetchOutcome.response 200 "" none)
            (fun _ _ => FetchOutcome.response 200 "" none)
            ([("google-u1", sampleGoogleConnection)] ++ [])).2) :=
  ⟨by decide,
    unknown_provider_contributes_nothing sampleDateParse 0
      (fun _ _ => FetchOutcome.response 200 "" none)
      (fun _ _ => FetchOutcome.response 200 "" none)
      [("google-u1", sampleGoogleConnection)] [] "caldav-u3"
      sampleUnknownConnection (by decide) (by decide)⟩

/-- C2: the aggregation loop catches each connection's fetch failure
individually — when one connection's fetch raises and every other
connection's fetch resolves with its full event list, the aggregate call
still resolves and returns exactly the other connections' events (as a
permutation: the loop output is then sorted); in particular it is empty
only when the others had no events at all. -/
theorem aggregate_isolates_failure
    (fetch : ConnMap → CalendarConnection →
      ConnMap × Except String (List CalendarEvent))
    (st : ConnMap) (l1 l2 : List CalendarConnection)
    (bad : CalendarConnection) (msg : String)
    (evsOf : CalendarConnection → List CalendarEvent)
    (hvals : getConnections st = l1 ++ bad :: l2)
    (hbad : ∀ st', (fetch st' bad).2 = Except.error msg)
    (hgood : ∀ c ∈ l1 ++ l2, ∀ st',
      (fetch st' c).2 = Except.ok (evsOf c)) :
    (getAllCalendarEventsWith fetch st).2.Perm
        (((l1 ++ l2).map evsOf).flatten)
      ∧ ((getAllCalendarEventsWith fetch st).2 = []
          ↔ ((l1 ++ l2).map evsOf).flatten = []) := by
  have hnotin : bad ∉ l1 ++ l2 := by
    intro hin
    have h1 := hgood bad hin st
    rw [hbad st] at h1
    exact Except.noConfusion h1
  have hstep : ∀ c ∈ l1 ++ bad :: l2, ∀ st',
      resultEvents (fetch st' c).2
        = (fun c' => if c' = bad then [] else evsOf c') c := by
    intro c hc st'
    by_cases hcb : c = bad
    · subst hcb
      rw [hbad st']
      simp [resultEvents]
    · have hcin : c ∈ l1 ++ l2 := by
        rcases List.mem_append.mp hc with h | h
        · exact List.mem_append.mpr (Or.inl h)
        · rcases List.mem_cons.mp h with h | h
          · exact absurd h hcb
          · exact List.mem_append.mpr (Or.inr h)
      rw [hgood c hcin st']
      simp [resultEvents, hcb]
  have hloop := aggLoop_snd fetch
    (fun c' => if c' = bad then [] else evsOf c')
    (l1 ++ bad :: l2) st [] hstep
  have hmap : (l1 ++ bad :: l2).map
      (fun c' => if c' = bad then [] else evsOf c')
      = l1.map evsOf ++ [] :: l2.map evsOf := by
    simp only [List.map_append, List.map_cons]
    have hm1 : l1.map (fun c' => if c' = bad then [] else evsOf c')
        = l1.map evsOf := by
      apply List.map_congr_left
      intro a ha
      have hne : a ≠ bad :=
        fun he => hnotin (List.mem_append.mpr (Or.inl (he ▸ ha)))
      simp [hne]
    have hm2 : l2.map (fun c' => if c' = bad then [] else evsOf c')
        = l2.map evsOf := by
      apply List.map_congr_left
      intro a ha
      have hne : a ≠ bad :=
        fun he => hnotin (List.mem_append.mpr (Or.inr (he ▸ ha)))
      simp [hne]
    rw [hm1, hm2]
    simp
  have hres : (getAllCalendarEventsWith fetch st).2
      = (((l1 ++ l2).map evsOf).flatten).mergeSort eventLe := by
    simp only [getAllCalendarEventsWith]
    rw [hvals, hloop, hmap]
    simp
  rw [hres]
  constructor
  · exact List.mergeSort_perm _ _
  · have hlen :=
      (List.mergeSort_perm (((l1 ++ l2).map evsOf).flatten) eventLe).length_eq
    constructor
    · intro h
      have h0 : (((l1 ++ l2).map evsOf).flatten).length = 0 := by
        rw [← hlen, h]
        rfl
      exact List.length_eq_zero.mp h0
    · intro h
      have h0 : ((((l1 ++ l2).map evsOf).flatten).mergeSort eventLe).length
          = 0 := by
        rw [hlen, h]
        rfl
      exact List.length_eq_zero.mp h0

/-- Witness for C2: the Google connection's fetch rejects while the
Microsoft one resolves with one event; the aggregate returns that event. -/
theorem aggregate_isolates_failure_witness :
    (badFetch [] sampleGoogleConnection).2 = Except.error "network down" ∧
    ((getAllCalendarEventsWith badFetch
        [("google-u1", sampleGoogleConnection),
         ("microsoft-u2", sampleMicrosoftConnection)]).2.Perm
        ((([] ++ [sampleMicrosoftConnection]).map
          (fun _ => [sampleEvent])).flatten)
      ∧ ((getAllCalendarEventsWith badFetch
          [("google-u1", sampleGoogleConnection),
           ("microsoft-u2", sampleMicrosoftConnection)]).2 = []
        ↔ ((([] ++ [sampleMicrosoftConnection]).map
            (fun _ => [sampleEvent])).flatten = []))) :=
  ⟨rfl,
    aggregate_isolates_failure badFetch
      [("google-u1", sampleGoogleConnection),
       ("microsoft-u2", sampleMicrosoftConnection)]
      [] [sampleMicrosoftConnection] sampleGoogleConnection "network down"
      (fun _ => [sampleEvent]) rfl (fun _ => rfl)
      (by
        intro c hc st'
        simp only [List.nil_append, List.mem_singleton] at hc
        subst hc
        rfl)⟩

/-- C1: with exactly two connections — one Google whose fetch resolves with
`N` items, one Microsoft whose fetch resolves with `M` items —
`getAllCalendarEvents` returns exactly `N + M` events, a permutation of the
two normalized lists in fetch order, sorted ascending by start time; the
sort is stable: any pair in order in the concatenated fetch output whose
start times compare `≤` stays in that order in the result. -/
theorem getAllCalendarEvents_two_connections
    (dateParse : String → Int) (now : Int)
    (genv : CalendarConnection → Nat → FetchOutcome GoogleItem)
    (menv : CalendarConnection → Nat → FetchOutcome MicrosoftItem)
    (kg km : String) (gc mc : CalendarConnection)
    (gs ms : Nat) (gb mb : String)
    (gItems : List GoogleItem) (mItems : List MicrosoftItem)
    (hgp : gc.provider = "google") (hmp : mc.provider = "microsoft")
    (hge : genv gc 0 = FetchOutcome.response gs gb (some gItems))
    (hgs : statusOk gs = true)
    (hme : menv mc 0 = FetchOutcome.response ms mb (some mItems))
    (hms : statusOk ms = true) :
    (getAllCalendarEvents dateParse now genv menv
        [(kg, gc), (km, mc)]).2.length = gItems.length + mItems.length
      ∧ (getAllCalendarEvents dateParse now genv menv
          [(kg, gc), (km, mc)]).2.Perm
          (gItems.map (normalizeGoogleItem dateParse)
            ++ mItems.map (normalizeMicrosoftItem dateParse))
      ∧ (getAllCalendarEvents dateParse now genv menv
          [(kg, gc), (km, mc)]).2.Pairwise
          (fun a b => eventLe a b = true)
      ∧ ∀ a b : CalendarEvent,
          [a, b].Sublist (gItems.map (normalizeGoogleItem dateParse)
            ++ mItems.map (normalizeMicrosoftItem dateParse)) →
          eventLe a b = true →
          [a, b].Sublist (getAllCalendarEvents dateParse now genv menv
            [(kg, gc), (km, mc)]).2 := by
  have hgb : (gc.provider == "google") = true := by rw [hgp]; rfl
  have hmbg : (mc.provider == "google") = false := by rw [hmp]; rfl
  have hmb : (mc.provider == "microsoft") = true := by rw [hmp]; rfl
  have htryg : fetchGoogleTry dateParse now (genv gc) 1 0 gc
      = Except.ok (gItems.map (normalizeGoogleItem dateParse)) := by
    simp [fetchGoogleTry, refreshIfExpired_eq, hge, hgs]
  have htrym : fetchMicrosoftTry dateParse now (menv mc) 1 0 mc
      = Except.ok (mItems.map (normalizeMicrosoftItem dateParse)) := by
    simp [fetchMicrosoftTry, refreshIfExpired_eq, hme, hms]
  have hcg : connContribution dateParse now genv menv gc
      = gItems.map (normalizeGoogleItem dateParse) := by
    unfold connContribution
    simp only [dispatchFetch, hgb, if_true]
    rw [fetchGoogle_snd, htryg]
    rfl
  have hcm : connContribution dateParse now genv menv mc
      = mItems.map (normalizeMicrosoftItem dateParse) := by
    unfold connContribution
    simp only [dispatchFetch, hmbg, hmb, if_true, Bool.false_eq_true,
      if_false]
    rw [fetchMicrosoft_snd, htrym]
    rfl
  have hloop := aggLoop_snd (dispatchFetch dateParse now genv menv)
    (connContribution dateParse now genv menv) [gc, mc]
    [(kg, gc), (km, mc)] []
    (fun c' _ st' =>
      resultEvents_dispatchFetch dateParse now genv menv st' c')
  have hres : (getAllCalendarEvents dateParse now genv menv
      [(kg, gc), (km, mc)]).2
      = ((gItems.map (normalizeGoogleItem dateParse)
          ++ mItems.map (normalizeMicrosoftItem dateParse))).mergeSort
          eventLe := by
    simp only [getAllCalendarEvents, getAllCalendarEventsWith]
    have hvals : getConnections [(kg, gc), (km, mc)] = [gc, mc] := rfl
    rw [hvals, hloop]
    simp [hcg, hcm]
  refine ⟨?_, ?_, ?_, ?_⟩
  · rw [hres, List.length_mergeSort]
    simp
  · rw [hres]
    exact List.mergeSort_perm _ _
  · rw [hres]
    have h := List.sorted_mergeSort eventLe_trans eventLe_total
      (gItems.map (normalizeGoogleItem dateParse)
        ++ mItems.map (normalizeMicrosoftItem dateParse))
    simpa using h
  · intro a b hsub hle
    rw [hres]
    exact List.pair_sublist_mergeSort eventLe_trans eventLe_total hle hsub

/-- Witness for C1: two Google items and one Microsoft item. -/
theorem getAllCalendarEvents_two_connections_witness :
    statusOk 200 = true ∧
    ((getAllCalendarEvents sampleDateParse 0
        (fun _ _ => FetchOutcome.response 200 ""
          (some [sampleGoogleItem, sampleAllDayGoogleItem]))
        (fun _ _ => FetchOutcome.response 200 ""
          (some [sampleMicrosoftItem]))
        [("google-u1", sampleGoogleConnection),
         ("microsoft-u2", sampleMicrosoftConnection)]).2.length
        = [sampleGoogleItem, sampleAllDayGoogleItem].length
          + [sampleMicrosoftItem].length
      ∧ (getAllCalendarEvents sampleDateParse 0
          (fun _ _ => FetchOutcome.response 200 ""
            (some [sampleGoogleItem, sampleAllDayGoogleItem]))
          (fun _ _ => FetchOutcome.response 200 ""
            (some [sampleMicrosoftItem]))
          [("google-u1", sampleGoogleConnection),
           ("microsoft-u2", sampleMicrosoftConnection)]).2.Perm
          ([sampleGoogleItem, sampleAllDayGoogleItem].map
            (normalizeGoogleItem sampleDateParse)
            ++ [sampleMicrosoftItem].map
              (normalizeMicrosoftItem sampleDateParse))
      ∧ (getAllCalendarEvents sampleDateParse 0
          (fun _ _ => FetchOutcome.response 200 ""
            (some [sampleGoogleItem, sampleAllDayGoogleItem]))
          (fun _ _ => FetchOutcome.response 200 ""
            (some [sampleMicrosoftItem]))
          [("google-u1", sampleGoogleConnection),
           ("microsoft-u2", sampleMicrosoftConnection)]).2.Pairwise
          (fun a b => eventLe a b = true)
      ∧ ∀ a b : CalendarEvent,
          [a, b].Sublist ([sampleGoogleItem, sampleAllDayGoogleItem].map
            (normalizeGoogleItem sampleDateParse)
            ++ [sampleMicrosoftItem].map
              (normalizeMicrosoftItem sampleDateParse)) →
          eventLe a b = true →
          [a, b].Sublist (getAllCalendarEvents sampleDateParse 0
            (fun _ _ => FetchOutcome.response 200 ""
              (some [sampleGoogleItem, sampleAllDayGoogleItem]))
            (fun _ _ => FetchOutcome.response 200 ""
              (some [sampleMicrosoftItem]))
            [("google-u1", sampleGoogleConnection),
             ("microsoft-u2", sampleMicrosoftConnection)]).2) :=
  ⟨rfl,
    getAllCalendarEvents_two_connections sampleDateParse 0
      (fun _ _ => FetchOutcome.response 200 ""
        (some [sampleGoogleItem, sampleAllDayGoogleItem]))
      (fun _ _ => FetchOutcome.response 200 "" (some [sampleMicrosoftItem]))
      "google-u1" "microsoft-u2" sampleGoogleConnection
      sampleMicrosoftConnection 200 200 "" ""
      [sampleGoogleItem, sampleAllDayGoogleItem] [sampleMicrosoftItem]
      rfl rfl rfl rfl rfl rfl⟩

/-- C8 counterexample: the array returned by `getConnections` holds
references to the manager's own records, not copies — writing through the
reference at position 0 of the returned array changes the manager's state
(its view of the table), refuting that every caller-side mutation of the
returned value leaves the manager unchanged. -/
theorem getConnections_snapshot_counterexample :
    0 ∈ getConnectionsRefs sampleManagerState
      ∧ managerView (heapWrite sampleManagerState 0 mutatedConnection)
        ≠ managerView sampleManagerState := by
  decide

/-- C8 amended: `getConnections` returns a fresh array whose elements are
references to the manager's own records — mutating the array itself leaves
the manager's table untouched (same ids, same references), but writing a
record through the reference at position `i` of the returned array replaces
position `i` of the manager's own view. -/
theorem getConnections_fresh_array_shared_records
    (s : ManagerState) (i addr : Nat) (v : CalendarConnection)
    (haddr : (getConnectionsRefs s)[i]? = some addr)
    (hnd : (getConnectionsRefs s).Nodup)
    (hlt : ∀ a ∈ getConnectionsRefs s, a < s.heap.length) :
    (heapWrite s addr v).table = s.table
      ∧ managerView (heapWrite s addr v) = (managerView s).set i v := by
  refine ⟨rfl, ?_⟩
  have h := map_getD_set s.heap v (getConnectionsRefs s) i addr haddr hnd hlt
  show s.table.map (fun kv => (s.heap.set addr v).getD kv.2 blankConnection)
      = (s.table.map (fun kv => s.heap.getD kv.2 blankConnection)).set i v
  have hl : s.table.map
      (fun kv => (s.heap.set addr v).getD kv.2 blankConnection)
      = (getConnectionsRefs s).map
        (fun a => (s.heap.set addr v).getD a blankConnection) := by
    simp [getConnectionsRefs, List.map_map, Function.comp]
  have hr : s.table.map (fun kv => s.heap.getD kv.2 blankConnection)
      = (getConnectionsRefs s).map
        (fun a => s.heap.getD a blankConnection) := by
    simp [getConnectionsRefs, List.map_map, Function.comp]
  rw [hl, hr, h]

/-- Witness for the amended C8 at the one-connection state. -/
theorem getConnections_fresh_array_shared_records_witness :
    (getConnectionsRefs sampleManagerState)[0]? = some 0 ∧
    ((heapWrite sampleManagerState 0 mutatedConnection).table
        = sampleManagerState.table
      ∧ managerView (heapWrite sampleManagerState 0 mutatedConnection)
        = (managerView sampleManagerState).set 0 mutatedConnection) :=
  ⟨rfl,
    getConnections_fresh_array_shared_records sampleManagerState 0 0
      mutatedConnection rfl (by decide) (by decide)⟩

end Timebloc
